import Mathlib

/-!
# Verification of the financial-daily-summary pipeline

A shallow embedding of the pipeline's stage implementations
(`summary_agent.py`, `translate_agent.py`, `send_agent.py`,
`market_flow.py`) together with proofs about the embedded code.

Python values are embedded as the inductive type `PyVal`.  Machine-level
concerns (HTTP, clocks, the LLM) are environmental: their outcomes enter
as explicit parameters, and side effects (messages sent, photos sent,
sleeps performed) are collected in explicit traces.
-/

/-- Embedded Python values.  A `str` carries, alongside its characters, the
result of `json.loads` applied to it (`Option.none` models a
`JSONDecodeError`); this embeds the JSON decoder environmentally.  `obj`
models objects that expose `__dict__`; `tup` models tuples. -/
inductive PyVal : Type where
  | pynone : PyVal
  | pybool : Bool → PyVal
  | pyint  : Int → PyVal
  | str    : String → Option PyVal → PyVal
  | list   : List PyVal → PyVal
  | tup    : List PyVal → PyVal
  | dict   : List (String × PyVal) → PyVal
  | obj    : String → List (String × PyVal) → PyVal
deriving Repr

mutual

/-- Rendering of Python `repr`, used by the embedded `str(...)` calls. -/
def pyRepr : PyVal → String
  | .pynone => "None"
  | .pybool b => if b then "True" else "False"
  | .pyint n => toString n
  | .str s _ => "'" ++ s ++ "'"
  | .list xs => "[" ++ String.intercalate ", " (pyReprList xs) ++ "]"
  | .tup xs => "(" ++ String.intercalate ", " (pyReprList xs) ++ ")"
  | .dict es => "\x7b" ++ String.intercalate ", " (pyReprEntries es) ++ "\x7d"
  | .obj name _ => "<" ++ name ++ " object>"

/-- `repr` of each element of a Python list or tuple. -/
def pyReprList : List PyVal → List String
  | [] => []
  | x :: xs => pyRepr x :: pyReprList xs

/-- `repr` of each `'key': value` entry of a Python dict. -/
def pyReprEntries : List (String × PyVal) → List String
  | [] => []
  | (k, v) :: es => ("'" ++ k ++ "': " ++ pyRepr v) :: pyReprEntries es

end

/-- Python `str(...)`: identity on strings, `repr` otherwise. -/
def pyStr : PyVal → String
  | .str s _ => s
  | v => pyRepr v

/-- Python `s.lower()` (ASCII suffices for the keyword checks in the code). -/
def pyLower (s : String) : String := String.mk (s.data.map Char.toLower)

/-- Substring occurrence over character lists. -/
def containsSub (pat : List Char) : List Char → Bool
  | [] => pat.isEmpty
  | x :: rest => pat.isPrefixOf (x :: rest) || containsSub pat rest

/-- Python `pat in s` substring membership. -/
def strContains (s pat : String) : Bool := containsSub pat.data s.data

/-- Python `s.startswith(pre)`. -/
def pyStartsWith (s pre : String) : Bool := pre.data.isPrefixOf s.data

/-- Python `s.strip()`: drop leading and trailing whitespace. -/
def pyStrip (s : String) : String :=
  String.mk (((s.data.dropWhile Char.isWhitespace).reverse.dropWhile Char.isWhitespace).reverse)

/-- Split a character list at every occurrence of `sep`, keeping empty
groups (the semantics of Python `s.split(sep)` for a one-character
separator). -/
def splitOnChar (sep : Char) : List Char → List (List Char)
  | [] => [[]]
  | x :: xs =>
    match splitOnChar sep xs with
    | [] => [[]]
    | g :: gs => if x = sep then [] :: g :: gs else (x :: g) :: gs

/-- Python `s.split('\n')`, also standing in for `s.splitlines()` on
newline-separated text. -/
def splitlines (s : String) : List String := (splitOnChar '\n' s.data).map String.mk

/-- Whether an embedded value is a Python `str`. -/
def PyVal.isStr : PyVal → Bool
  | .str _ _ => true
  | _ => false

/-- The characters of an embedded `str` (junk elsewhere). -/
def PyVal.strVal : PyVal → String
  | .str s _ => s
  | _ => ""

/-- Python `sep.join(xs)`: raises `TypeError` unless every element is a `str`. -/
def pyJoinStr (sep : String) (xs : List PyVal) : Except String String :=
  if xs.all PyVal.isStr then
    Except.ok (String.intercalate sep (xs.map PyVal.strVal))
  else Except.error "TypeError: sequence item: expected str instance"

/-- Python truthiness of an embedded value. -/
def pyTruthy : PyVal → Bool
  | .pynone => false
  | .pybool b => b
  | .pyint n => n != 0
  | .str s _ => s.length != 0
  | .list xs => !xs.isEmpty
  | .tup xs => !xs.isEmpty
  | .dict es => !es.isEmpty
  | .obj _ _ => true

/-- Truthiness of `d.get(k)`-style optional values (`None` is falsy). -/
def truthyOpt : Option PyVal → Bool
  | Option.none => false
  | some v => pyTruthy v

/-! ## Summarization stage (`summary_agent.py`) -/

/-- The `for v in news.values(): if isinstance(v, list): ... break` scan in
`summary_agent`: first value that is a Python list, else no headlines. -/
def firstListValue : List (String × PyVal) → List PyVal
  | [] => []
  | (_, .list xs) :: _ => xs
  | _ :: rest => firstListValue rest

/-- Headline extraction of `summary_agent` (lines 17-40): robustly coerce
`list | dict | str` input into a list of headline values. -/
def extractHeadlines : PyVal → List PyVal
  | .list xs => xs
  | .dict es =>
    match List.lookup "news" es with
    | some (.list xs) => xs
    | _ =>
      match List.lookup "description" es with
      | some (.list xs) => xs
      | _ => firstListValue es
  | .str s parsed =>
    match parsed with
    | some (.list xs) => xs
    | _ => ((splitlines s).map pyStrip |>.filter (fun l => l != "")).map
        (fun l => PyVal.str l Option.none)
  | _ => []

/-- Line 44 of `summary_agent`: `text = "\n".join(headlines)`, which raises
`TypeError` when a headline is not a `str`. -/
def headlinesText (hs : List PyVal) : Except String String := pyJoinStr "\n" hs

/-- Split a character list at every whitespace character. -/
def splitByWs : List Char → List (List Char)
  | [] => [[]]
  | x :: xs =>
    match splitByWs xs with
    | [] => [[]]
    | g :: gs => if x.isWhitespace then [] :: g :: gs else (x :: g) :: gs

/-- Python `s.split()` with no separator: whitespace runs, empties dropped. -/
def pySplitWs (s : String) : List String :=
  ((splitByWs s.data).map String.mk).filter (fun w => w != "")

/-- Terminal fallback of `summary_agent` (lines 67-73): join headlines with
spaces and truncate to 200 words with an ellipsis when over the bound. -/
def summaryFallback (headlines : List String) : String :=
  let simple := String.intercalate " " headlines
  let words := pySplitWs simple
  if words.length > 200 then String.intercalate " " (words.take 200) ++ "..."
  else simple

/-- Retry loop of `summary_agent` (lines 46-65), traced by its backoff
sleeps: `outcome i = true` means the completion call of 0-indexed attempt
`i` succeeds.  A failed attempt sleeps `2 ^ attempt` seconds unless it was
the final (fifth) attempt. -/
def retryFrom (outcome : Nat → Bool) (attempt : Nat) : List Nat :=
  if attempt < 5 then
    if outcome attempt then []
    else if attempt < 5 - 1 then 2 ^ attempt :: retryFrom outcome (attempt + 1)
    else []
  else []
termination_by 5 - attempt

/-- The backoff sleeps performed by one `summary_agent` retry loop. -/
def summarySleeps (outcome : Nat → Bool) : List Nat := retryFrom outcome 0

/-! ## Translation stage (`translate_agent.py`) -/

/-- Input normalization of `translate_agent` (lines 17-30): coerce the
incoming summary to a string.  The dict fallback joins the `str`-typed
values with newlines through Python `join`, embedded as the fallible
`pyJoinStr` (the `isinstance` filter is what keeps it from raising). -/
def translateText : PyVal → Except String String
  | .str s _ => Except.ok s
  | .dict es =>
    match List.lookup "summary" es with
    | some (.str s _) => Except.ok s
    | _ =>
      match List.lookup "text" es with
      | some (.str s _) => Except.ok s
      | _ => pyJoinStr "\n" ((es.map Prod.snd).filter PyVal.isStr)
  | v => Except.ok (pyStr v)

/-- Environmental outcome of the one completion call plus JSON extraction
in `translate_agent`: `exn` means the request or `json.loads` raised,
`noJson` means the reply held no brace-delimited substring (the code then
raises `ValueError`, caught by the same handler), `decoded m` means
`json.loads` of the extracted substring produced the dict `m`. -/
inductive TranslateOutcome : Type where
  | exn : TranslateOutcome
  | noJson : TranslateOutcome
  | decoded : List (String × PyVal) → TranslateOutcome

/-- Python `d.setdefault`-style update used by the backfill loop:
`translations[lang] = text` only when `lang not in translations`;
a fresh key is appended in insertion order. -/
def dictSetDefault (es : List (String × PyVal)) (k : String) (v : PyVal) :
    List (String × PyVal) :=
  if (List.lookup k es).isSome then es else es ++ [(k, v)]

/-- The key-backfill loop of `translate_agent` (lines 63-66). -/
def backfillLangs (es : List (String × PyVal)) (text : String) :
    List (String × PyVal) :=
  dictSetDefault
    (dictSetDefault (dictSetDefault es "Hindi" (.str text Option.none))
      "Arabic" (.str text Option.none))
    "Hebrew" (.str text Option.none)

/-- `translate_agent` (lines 8-76) over an environmental model-call
outcome.  An `Except.error` result embeds an uncaught Python exception. -/
def translate_agent (summary : PyVal) (outcome : TranslateOutcome) :
    Except String (List (String × PyVal)) :=
  match translateText summary with
  | Except.error e => Except.error e
  | Except.ok text =>
    if pyStrip text = "" then
      Except.ok [("Hindi", .str "" Option.none), ("Arabic", .str "" Option.none),
        ("Hebrew", .str "" Option.none)]
    else
      match outcome with
      | .decoded m => Except.ok (backfillLangs m text)
      | _ => Except.ok [("Hindi", .str text Option.none),
          ("Arabic", .str text Option.none), ("Hebrew", .str text Option.none)]

/-! ## Delivery stage: input parsing (`send_agent.py` lines 70-142) -/

/-- Python `list(x)` as used on the `charts` field: lists and tuples
enumerate their elements, a string its characters, a dict its keys;
other values raise `TypeError`. -/
def pyList : PyVal → Except String (List PyVal)
  | .list xs => Except.ok xs
  | .tup xs => Except.ok xs
  | .str s _ => Except.ok (s.data.map (fun c => PyVal.str (String.mk [c]) Option.none))
  | .dict es => Except.ok (es.map (fun e => PyVal.str e.1 Option.none))
  | _ => Except.error "TypeError: object is not iterable"

/-- A two-element `(str key, value)` pair acceptable to Python `dict(x)`. -/
def pairOf : PyVal → Option (String × PyVal)
  | .list ((.str k _) :: v :: []) => some (k, v)
  | .tup ((.str k _) :: v :: []) => some (k, v)
  | _ => Option.none

/-- Python `dict(x)` as used on the `translations` field: dicts copy, a
sequence of two-element string-keyed pairs converts, all else raises. -/
def pyDictConv : PyVal → Except String (List (String × PyVal))
  | .dict es => Except.ok es
  | .list xs =>
    match xs.mapM pairOf with
    | some ps => Except.ok ps
    | Option.none => Except.error "ValueError: dictionary update sequence element"
  | .tup xs =>
    match xs.mapM pairOf with
    | some ps => Except.ok ps
    | Option.none => Except.error "ValueError: dictionary update sequence element"
  | _ => Except.error "TypeError: cannot convert to dict"

/-- The `any(term in str(value).lower() ...)` test of the nested-dict scan
in `_parse_input_data` (line 87). -/
def mentionsReportTerm (v : PyVal) : Bool :=
  ["summary", "chart", "translation"].any (fun t => strContains (pyLower (pyStr v)) t)

/-- `isinstance(value, (dict, list, str))`. -/
def isDictListStr : PyVal → Bool
  | .dict _ => true
  | .list _ => true
  | .str _ _ => true
  | _ => false

/-- First nested value of a dict that the scan on lines 86-88 recurses
into, if any. -/
def findNestedCandidate : List (String × PyVal) → Option PyVal
  | [] => Option.none
  | (_, v) :: rest =>
    if isDictListStr v && mentionsReportTerm v then some v
    else findNestedCandidate rest

/-- Financial keywords scanned by `_extract_from_complex_data` (line 118). -/
def financialTerms : List String :=
  ["market", "stock", "trading", "financial", "dow", "nasdaq", "s&p", "price"]

/-- The per-language regular-expression pattern lists of
`_extract_from_complex_data` (lines 129-133). -/
def translationPatterns : List (String × List String) :=
  [("Hindi", ["hindi[:\\s]*([^A-Za-z\\n]+)", "हिंदी[:\\s]*([^\\n]+)", "दैनिक[^A-Za-z\\n]*"]),
   ("Arabic", ["arabic[:\\s]*([^A-Za-z\\n]+)", "عربي[:\\s]*([^\\n]+)", "يومي[^A-Za-z\\n]*"]),
   ("Hebrew", ["hebrew[:\\s]*([^A-Za-z\\n]+)", "עברית[:\\s]*([^\\n]+)", "יומי[^A-Za-z\\n]*"])]

/-- The per-language loop of lines 135-140: first pattern whose search
result strips to something non-empty wins; its stripped text is stored. -/
def firstTranslationMatch (searchPat : String → String → Option String)
    (text : String) : List String → Option String
  | [] => Option.none
  | p :: ps =>
    match searchPat p text with
    | some g =>
      if pyStrip g != "" then some (pyStrip g)
      else firstTranslationMatch searchPat text ps
    | Option.none => firstTranslationMatch searchPat text ps

/-- `_extract_from_complex_data` (lines 112-142).  The two
regular-expression operations are environmental parameters:
`findChartUrls` embeds `re.findall` with the chart-URL pattern (line 124,
followed by the order-losing `list(set(...))`, embedded as `eraseDups`)
and `searchPat` embeds `re.search` of a given pattern, returning the
matched text.  The result is the three-key report dict for every
behaviour of these parameters. -/
def extractFromComplexData (findChartUrls : String → List String)
    (searchPat : String → String → Option String) (data : PyVal) : PyVal :=
  let text := pyStr data
  let summaryPart :=
    if financialTerms.any (fun k => strContains (pyLower text) k) then
      String.intercalate "\n"
        ((((splitlines text).map pyStrip).filter
          (fun l => 20 < l.length && !(pyStartsWith l "http"))).take 10)
    else ""
  let charts := (findChartUrls text).eraseDups
  let trans := translationPatterns.filterMap (fun lp =>
      (firstTranslationMatch searchPat text lp.2).map
        (fun g => (lp.1, PyVal.str g Option.none)))
  PyVal.dict [("summary", PyVal.str summaryPart Option.none),
    ("charts", PyVal.list (charts.map (fun u => PyVal.str u Option.none))),
    ("translations", PyVal.dict trans)]

/-- `_parse_input_data` (lines 70-109).  `fuel` embeds Python's recursion
limit: exhausting it is a `RecursionError`, i.e. the call does not return.
An `Except.error` result embeds an uncaught Python exception. -/
def parse_input_data (findChartUrls : String → List String)
    (searchPat : String → String → Option String) :
    Nat → PyVal → Except String PyVal
  | 0, _ => Except.error "RecursionError: maximum recursion depth exceeded"
  | fuel + 1, data =>
    match data with
    | .dict es =>
      if (List.lookup "summary" es).isSome || (List.lookup "charts" es).isSome
          || (List.lookup "translations" es).isSome then
        match pyList ((List.lookup "charts" es).getD (PyVal.list [])) with
        | Except.error e => Except.error e
        | Except.ok cs =>
          match pyDictConv ((List.lookup "translations" es).getD (PyVal.dict [])) with
          | Except.error e => Except.error e
          | Except.ok ts =>
            Except.ok (PyVal.dict
              [("summary",
                PyVal.str (pyStr ((List.lookup "summary" es).getD (PyVal.str "" Option.none)))
                  Option.none),
               ("charts", PyVal.list cs),
               ("translations", PyVal.dict ts)])
      else
        match List.lookup "raw" es with
        | some rawVal => parse_input_data findChartUrls searchPat fuel rawVal
        | Option.none =>
          match findNestedCandidate es with
          | some v => parse_input_data findChartUrls searchPat fuel v
          | Option.none =>
            Except.ok (PyVal.dict [("summary", PyVal.str (pyStr data) Option.none),
              ("charts", PyVal.list []), ("translations", PyVal.dict [])])
    | .str s parsed =>
      match parsed with
      | some (PyVal.dict es) => parse_input_data findChartUrls searchPat fuel (PyVal.dict es)
      | _ =>
        Except.ok (PyVal.dict [("summary", PyVal.str s Option.none),
          ("charts", PyVal.list []), ("translations", PyVal.dict [])])
    | .list xs => Except.ok (extractFromComplexData findChartUrls searchPat (PyVal.list xs))
    | .tup xs => Except.ok (extractFromComplexData findChartUrls searchPat (PyVal.tup xs))
    | .obj n attrs => Except.ok (extractFromComplexData findChartUrls searchPat (PyVal.obj n attrs))
    | v =>
      Except.ok (PyVal.dict [("summary", PyVal.str (pyStr v) Option.none),
        ("charts", PyVal.list []), ("translations", PyVal.dict [])])

/-- The structured-report shape Delivery's parser produces: a dict with
exactly the keys `summary` (a str), `charts` (a list) and `translations`
(a dict), in that order. -/
def deliveryShape : PyVal → Bool
  | .dict (("summary", .str _ _) :: ("charts", .list _) :: ("translations", .dict _) :: []) => true
  | _ => false

/-! ## Delivery stage: assembly and sending (`send_agent.py` lines 21-64, 149-291) -/

/-- The Markdown-special characters escaped by `_escape_markdown`
(line 274); backquote and braces are written by code point. -/
def markdownSpecialChars : List Char :=
  ['*', '_', Char.ofNat 96, '[', ']', '(', ')', '~', '>', '#', '+', '-', '=', '|',
   Char.ofNat 123, Char.ofNat 125, '.', '!']

/-- Python `t.replace(c, repl)` for a one-character needle, over the
character list. -/
def replaceChar (c : Char) (repl : List Char) : List Char → List Char
  | [] => []
  | x :: xs =>
    if x = c then repl ++ replaceChar c repl xs else x :: replaceChar c repl xs

/-- `_escape_markdown` (lines 269-277): prefix each special character with
a backslash, by repeated `str.replace`. -/
def escape_markdown (text : String) : String :=
  String.mk (markdownSpecialChars.foldl (fun t c => replaceChar c ['\\', c] t) text.data)

/-- Python `str.title()` as used on language names (line 168). -/
def pyTitleGo : Bool → List Char → List Char
  | _, [] => []
  | prevAlpha, c :: cs =>
    if c.isAlpha then
      (if prevAlpha then c.toLower else c.toUpper) :: pyTitleGo true cs
    else c :: pyTitleGo false cs

/-- Python `str.title()`. -/
def pyTitle (s : String) : String := String.mk (pyTitleGo false s.data)

/-- `d.get(k)` on an embedded dict. -/
def dictGet (v : PyVal) (k : String) : Option PyVal :=
  match v with
  | .dict es => List.lookup k es
  | _ => Option.none

/-- `d.get(k, default)` on an embedded dict. -/
def dictGetD (v : PyVal) (k : String) (d : PyVal) : PyVal :=
  (dictGet v k).getD d

/-- One iteration of the translations loop (lines 165-168): a falsy value
is skipped before `.strip()` is reached; a truthy non-`str` value makes
line 166's `text.strip()` raise. -/
def transLine (lang : String) (t : PyVal) : Except String (Option String) :=
  if pyTruthy t then
    match t with
    | .str s _ =>
      Except.ok (if pyStrip s != "" then
          some ("\n🔸 *" ++ pyTitle lang ++ ":*\n" ++ escape_markdown (pyStrip s))
        else Option.none)
    | _ => Except.error "AttributeError: object has no attribute strip"
  else Except.ok Option.none

/-- Message assembly of `_send_main_message_sync` (lines 151-178), applied
to the components of the parsed report (the parser always yields that
shape, proved below); `now` embeds `_get_current_time()`.  Values inside
`translations` may still be arbitrary, hence the fallible result. -/
def buildFullMessage (summary0 : String) (translations : List (String × PyVal))
    (charts : List PyVal) (now : String) : Except String String := do
  let summary := pyStrip summary0
  let sumParts := if summary != "" then
      ["\n📈 *Market Overview:*\n" ++ escape_markdown summary] else []
  let transParts ←
    if translations.isEmpty then pure ([] : List String)
    else do
      let lines ← translations.mapM (fun lt => transLine lt.1 lt.2)
      pure ("\n🌐 *Translations Available:*" :: lines.filterMap id)
  let chartParts := if charts.isEmpty then ([] : List String)
    else ["\n📊 *Market Charts:* " ++ toString charts.length ++ " charts attached below"]
  let tailParts := ["\n⏰ *Generated:* " ++ now, "📱 *Daily Financial Summary Bot*"]
  pure (String.intercalate "\n"
    (["📊 *DAILY MARKET SUMMARY*", String.mk (List.replicate 30 '=')]
      ++ sumParts ++ transParts ++ chartParts ++ tailParts))

/-- The accumulation loop of `_split_message` (lines 281-290). -/
def splitLoop (lns : List String) (chunks : List String) (current : String)
    (maxLength : Nat) : List String :=
  match lns with
  | [] => if pyStrip current != "" then chunks ++ [pyStrip current] else chunks
  | line :: rest =>
    if current.length + line.length + 1 ≤ maxLength then
      splitLoop rest chunks (current ++ line ++ "\n") maxLength
    else
      splitLoop rest (if pyStrip current != "" then chunks ++ [pyStrip current] else chunks)
        (line ++ "\n") maxLength

/-- `_split_message` (lines 279-291). -/
def split_message (message : String) (maxLength : Nat := 4000) : List String :=
  let r := splitLoop (splitlines message) [] "" maxLength
  if r.isEmpty then ["Empty message"] else r

/-- The length policy of `_send_main_message_sync` (lines 180-186): the
list of `sendMessage` payloads produced for one assembled message. -/
def sendMessagesFor (fullMessage : String) : List String :=
  if 4000 < fullMessage.length then
    let chunks := split_message fullMessage
    chunks.enum.map (fun p =>
      "Part " ++ toString (p.1 + 1) ++ "/" ++ toString chunks.length ++ ":\n\n" ++ p.2)
  else [fullMessage]

/-- Line 193's check: `isinstance(url, str) and url.startswith(('http://', 'https://'))`. -/
def validChartUrl : PyVal → Bool
  | .str s _ => pyStartsWith s "http://" || pyStartsWith s "https://"
  | _ => false

/-- Trace of `_send_chart_images_sync`: the urls for which a `sendPhoto`
call was made, in order, and the returned success count. -/
structure ChartTrace where
  attempts : List String
  sent : Nat
deriving Repr, DecidableEq

/-- `_send_chart_images_sync` (lines 189-203).  `photoOk i` embeds whether
the `sendPhoto` call for enumeration position `i` succeeds; a failed send
is caught and the loop continues. -/
def send_chart_images_sync (charts : List PyVal) (photoOk : Nat → Bool) : ChartTrace :=
  let att := (charts.take 5).enum.filter (fun p => validChartUrl p.2)
  { attempts := att.map (fun p => PyVal.strVal p.2)
    sent := (att.filter (fun p => photoOk p.1)).length }

/-- Trace of one `send_agent` call: `sendMessage` payloads, `sendPhoto`
urls, and the returned status string. -/
structure SendTrace where
  messages : List String
  photos : List String
  result : String
deriving Repr, DecidableEq

/-- The error-notification payload of `_send_error_notification_sync`
(lines 206-212). -/
def errorNotificationText (e : String) (now : String) : String :=
  "⚠️ *Daily Summary Error*\n\n`" ++ escape_markdown e ++ "`\n\n⏰ " ++ now

/-- `send_agent` (lines 21-64), traced.  `fuel`, `findChartUrls` and
`searchPat` are threaded to the parser; `now` embeds
`_get_current_time()`; `photoOk` embeds per-photo send outcomes.  A step
that raises (an embedded `Except.error`) lands in the handler of lines
55-62, which attempts one error-notification message and returns the
error string. -/
def send_agent (findChartUrls : String → List String)
    (searchPat : String → String → Option String) (fuel : Nat)
    (data : PyVal) (now : String) (photoOk : Nat → Bool) : SendTrace :=
  match parse_input_data findChartUrls searchPat fuel data with
  | Except.error e =>
    { messages := [errorNotificationText e now], photos := [],
      result := "Error sending to Telegram: " ++ e }
  | Except.ok structured =>
    if !(truthyOpt (dictGet structured "summary") || truthyOpt (dictGet structured "charts")
        || truthyOpt (dictGet structured "translations")) then
      { messages := [], photos := [], result := "No data available to send" }
    else
      let summary := PyVal.strVal (dictGetD structured "summary" (PyVal.str "" Option.none))
      let translations := match dictGetD structured "translations" (PyVal.dict []) with
        | .dict es => es
        | _ => []
      let charts := match dictGetD structured "charts" (PyVal.list []) with
        | .list cs => cs
        | _ => []
      match buildFullMessage summary translations charts now with
      | Except.error e =>
        { messages := [errorNotificationText e now], photos := [],
          result := "Error sending to Telegram: " ++ e }
      | Except.ok fullMessage =>
        let ct := send_chart_images_sync charts photoOk
        { messages := sendMessagesFor fullMessage
          photos := ct.attempts
          result := "Successfully sent to Telegram! Charts sent: " ++ toString ct.sent }

/-! ## Orchestrator (`market_flow.py`) -/

/-- The minimal error report of `run_market_flow` (lines 142-150):
truncated error text as summary, no charts, three fixed localized failure
sentinels. -/
def mkErrorData (e : String) : PyVal :=
  PyVal.dict
    [("summary",
      PyVal.str ("Daily market summary failed due to technical issue: " ++ e.take 200)
        Option.none),
     ("charts", PyVal.list []),
     ("translations", PyVal.dict
       [("Hindi", PyVal.str "दैनिक सारांश विफल हुआ" Option.none),
        ("Arabic", PyVal.str "فشل الملخص اليومي" Option.none),
        ("Hebrew", PyVal.str "סיכום יומי נכשל" Option.none)])]

/-- Trace of one `run_market_flow` call: the Delivery-tool invocations made
by the error handler, and the outcome handed to the caller. -/
structure FlowTrace where
  notifySends : List PyVal
  result : Except String PyVal

/-- `run_market_flow` (lines 35-160).  `initOutcome` embeds
`create_groq_llm()` and the agent/crew construction (lines 41-130);
`kickoffOutcome` embeds `crew.kickoff()` (line 133); `notifyOutcome`
embeds the `send_tool.run(error_data)` call (line 153), whose own failure
is swallowed by lines 156-157 — which is why it influences neither the
recorded invocation nor the re-raised result. -/
def run_market_flow (initOutcome : Except String Unit)
    (kickoffOutcome : Except String PyVal) (_notifyOutcome : Except String String) :
    FlowTrace :=
  match initOutcome with
  | Except.error e => { notifySends := [mkErrorData e], result := Except.error e }
  | Except.ok _ =>
    match kickoffOutcome with
    | Except.error e => { notifySends := [mkErrorData e], result := Except.error e }
    | Except.ok r => { notifySends := [], result := Except.ok r }

/-- `run_market_flow_simple` (lines 166-197): the simplified direct chain;
any exception is caught and rendered as a string result, so it never
raises.  `chainOutcome` embeds the five direct tool invocations. -/
def run_market_flow_simple (chainOutcome : Except String String) : String :=
  match chainOutcome with
  | Except.ok r => r
  | Except.error e => "All flows failed: " ++ e

/-- Trace of one `main` call: whether the simplified fallback mode ran,
and the value returned (or exception raised) to the caller. -/
structure MainTrace where
  ranSimple : Bool
  result : Except String PyVal

/-- The top-level `main` of `market_flow.py` (lines 203-210): run the
primary flow; on any exception from it run `run_market_flow_simple` and
return its result.  (Named `main_entry` here because `main` is reserved.) -/
def main_entry (initOutcome : Except String Unit) (kickoffOutcome : Except String PyVal)
    (notifyOutcome : Except String String) (chainOutcome : Except String String) :
    MainTrace :=
  match (run_market_flow initOutcome kickoffOutcome notifyOutcome).result with
  | Except.ok r => { ranSimple := false, result := Except.ok r }
  | Except.error _ =>
    { ranSimple := true,
      result := Except.ok (PyVal.str (run_market_flow_simple chainOutcome) Option.none) }

/-- Newline-join of a group of lines, used to state the line-boundary
property of `_split_message`. -/
def joinNL : List String → String
  | [] => ""
  | l :: ls => ls.foldl (fun a b => a ++ "\n" ++ b) l

/-! ## Concrete fixtures used in counterexamples and witnesses -/

/-- Seven chart references whose single invalid entry comes first. -/
def chartsInvalidFirst : List PyVal :=
  [PyVal.str "ftp://bad" Option.none, PyVal.str "https://c1" Option.none,
   PyVal.str "https://c2" Option.none, PyVal.str "https://c3" Option.none,
   PyVal.str "https://c4" Option.none, PyVal.str "https://c5" Option.none,
   PyVal.str "https://c6" Option.none]

/-- Seven chart references whose single invalid entry comes last. -/
def chartsInvalidLast : List PyVal :=
  [PyVal.str "https://c1" Option.none, PyVal.str "https://c2" Option.none,
   PyVal.str "https://c3" Option.none, PyVal.str "https://c4" Option.none,
   PyVal.str "https://c5" Option.none, PyVal.str "https://c6" Option.none,
   PyVal.str "ftp://bad" Option.none]

/-- A message consisting of one single 4001-character line. -/
def longLine : String := String.mk (List.replicate 4001 'a')

/-! ## Helper lemmas -/

/-- `_extract_from_complex_data` always returns the three-key report dict. -/
theorem extract_shape (f : String → List String) (sp : String → String → Option String)
    (v : PyVal) : deliveryShape (extractFromComplexData f sp v) = true := rfl

/-- Whenever `_parse_input_data` returns, it returns the three-key report
dict (str summary, list charts, dict translations). -/
theorem parse_shape (f : String → List String) (sp : String → String → Option String) :
    ∀ fuel v r, parse_input_data f sp fuel v = Except.ok r → deliveryShape r = true := by
  intro fuel
  induction fuel with
  | zero => intro v r h; simp [parse_input_data] at h
  | succ n ih =>
    intro v r h
    cases v with
    | dict es =>
      simp only [parse_input_data] at h
      split at h
      · split at h
        · simp at h
        · split at h
          · simp at h
          · injection h with h; subst h; rfl
      · split at h
        · exact ih _ _ h
        · split at h
          · exact ih _ _ h
          · injection h with h; subst h; rfl
    | str s parsed =>
      simp only [parse_input_data] at h
      split at h
      · exact ih _ _ h
      · injection h with h; subst h; rfl
    | list xs =>
      simp only [parse_input_data] at h
      injection h with h; subst h; exact extract_shape f sp _
    | tup xs =>
      simp only [parse_input_data] at h
      injection h with h; subst h; exact extract_shape f sp _
    | obj nm attrs =>
      simp only [parse_input_data] at h
      injection h with h; subst h; exact extract_shape f sp _
    | pynone =>
      simp only [parse_input_data] at h
      injection h with h; subst h; rfl
    | pybool b =>
      simp only [parse_input_data] at h
      injection h with h; subst h; rfl
    | pyint n0 =>
      simp only [parse_input_data] at h
      injection h with h; subst h; rfl

/-! ## Claim theorems -/

/-- C10: on every input on which `_parse_input_data` returns, the returned
value is a dict whose key set is exactly `summary` (a str), `charts`
(a list), `translations` (a dict) — including unparsable strings,
`raw`-wrapped envelopes, and values routed through the best-effort
extractor. -/
theorem C10_parser_always_three_key_shape (f : String → List String)
    (sp : String → String → Option String) (fuel : Nat) (v r : PyVal)
    (h : parse_input_data f sp fuel v = Except.ok r) : deliveryShape r = true :=
  parse_shape f sp fuel v r h

theorem C10_witness :
    deliveryShape (PyVal.dict [("summary", PyVal.str "7" Option.none),
      ("charts", PyVal.list []), ("translations", PyVal.dict [])]) = true :=
  C10_parser_always_three_key_shape (fun _ => []) (fun _ _ => Option.none) 1 (PyVal.pyint 7)
    (PyVal.dict [("summary", PyVal.str "7" Option.none),
      ("charts", PyVal.list []), ("translations", PyVal.dict [])]) rfl

/-- C9: when the parsed report's summary, charts and translations are all
falsy, `send_agent` returns the nothing-to-send status and performs no
`sendMessage` and no `sendPhoto` call. -/
theorem C9_nothing_to_send (f : String → List String) (sp : String → String → Option String)
    (fuel : Nat) (data : PyVal) (now : String) (photoOk : Nat → Bool) (structured : PyVal)
    (hp : parse_input_data f sp fuel data = Except.ok structured)
    (h1 : truthyOpt (dictGet structured "summary") = false)
    (h2 : truthyOpt (dictGet structured "charts") = false)
    (h3 : truthyOpt (dictGet structured "translations") = false) :
    send_agent f sp fuel data now photoOk
      = { messages := [], photos := [], result := "No data available to send" } := by
  unfold send_agent
  rw [hp]
  simp [h1, h2, h3]

theorem C9_witness :
    send_agent (fun _ => []) (fun _ _ => Option.none) 1 (PyVal.str "" Option.none)
        "2024-01-01 00:00 IST" (fun _ => true)
      = { messages := [], photos := [], result := "No data available to send" } :=
  C9_nothing_to_send (fun _ => []) (fun _ _ => Option.none) 1 (PyVal.str "" Option.none)
    "2024-01-01 00:00 IST" (fun _ => true)
    (PyVal.dict [("summary", PyVal.str "" Option.none),
      ("charts", PyVal.list []), ("translations", PyVal.dict [])]) rfl rfl rfl rfl

/-- C2: whenever a stage exception escapes `crew.kickoff()`, the
orchestrator invokes the Delivery tool exactly once with the minimal
report (truncated error message as summary, no charts, the three fixed
localized failure sentinels), and re-raises the original exception —
for every outcome of the notification send. -/
theorem C2_error_notification_and_reraise (e : String) (notifyOutcome : Except String String) :
    (run_market_flow (Except.ok ()) (Except.error e) notifyOutcome).notifySends = [mkErrorData e]
    ∧ (run_market_flow (Except.ok ()) (Except.error e) notifyOutcome).result = Except.error e
    ∧ mkErrorData e = PyVal.dict
        [("summary",
          PyVal.str ("Daily market summary failed due to technical issue: " ++ e.take 200)
            Option.none),
         ("charts", PyVal.list []),
         ("translations", PyVal.dict
           [("Hindi", PyVal.str "दैनिक सारांश विफल हुआ" Option.none),
            ("Arabic", PyVal.str "فشل الملخص اليومي" Option.none),
            ("Hebrew", PyVal.str "סיכום יומי נכשל" Option.none)])] :=
  ⟨rfl, rfl, rfl⟩

/-- C3 counterexample: with initialization succeeding and `crew.kickoff()`
raising — an in-run failure — the entry point runs the simplified mode and
returns its result instead of surfacing the exception, contradicting the
claim that in-run failures bypass the simplified mode. -/
theorem C3_counterexample :
    (main_entry (Except.ok ()) (Except.error "boom") (Except.ok "sent")
      (Except.ok "simple result")).ranSimple = true
    ∧ (main_entry (Except.ok ()) (Except.error "boom") (Except.ok "sent")
        (Except.ok "simple result")).result
      = Except.ok (PyVal.str "simple result" Option.none) :=
  ⟨rfl, rfl⟩

/-- C3 (amended): the entry point runs the simplified mode on any
exception escaping the primary flow — initialization and in-run failures
alike — returning the simplified mode's result in place of the exception;
when the primary flow returns normally the simplified mode does not run. -/
theorem C3_fallback_on_any_primary_exception (initOutcome : Except String Unit)
    (kickoffOutcome : Except String PyVal) (notifyOutcome chainOutcome : Except String String) :
    (∀ r, (run_market_flow initOutcome kickoffOutcome notifyOutcome).result = Except.ok r →
      main_entry initOutcome kickoffOutcome notifyOutcome chainOutcome
        = { ranSimple := false, result := Except.ok r })
    ∧ (∀ e, (run_market_flow initOutcome kickoffOutcome notifyOutcome).result = Except.error e →
      main_entry initOutcome kickoffOutcome notifyOutcome chainOutcome
        = { ranSimple := true,
            result := Except.ok (PyVal.str (run_market_flow_simple chainOutcome) Option.none) }) := by
  constructor
  · intro r h; unfold main_entry; rw [h]
  · intro e h; unfold main_entry; rw [h]

theorem C3_witness :
    main_entry (Except.error "no api key") (Except.ok (PyVal.str "r" Option.none))
        (Except.ok "sent") (Except.ok "simple result")
      = { ranSimple := true, result := Except.ok (PyVal.str "simple result" Option.none) } :=
  (C3_fallback_on_any_primary_exception (Except.error "no api key")
    (Except.ok (PyVal.str "r" Option.none)) (Except.ok "sent") (Except.ok "simple result")).2
    "no api key" rfl

/-- C6: if the completion call first succeeds on attempt `k ≤ 5`
(1-indexed), the retry loop sleeps exactly once per prior failed attempt,
with durations `2^0 .. 2^(k-2)`, totalling `2^(k-1) - 1` seconds (zero
when `k = 1`); if all five attempts fail, the sleeps are `[1, 2, 4, 8]` —
none after the fifth attempt. -/
theorem C6_backoff_schedule (outcome : Nat → Bool) (k : Nat) :
    (1 ≤ k → k ≤ 5 → (∀ i, i < k - 1 → outcome i = false) → outcome (k - 1) = true →
      summarySleeps outcome = (List.range (k - 1)).map (fun i => 2 ^ i)
      ∧ (summarySleeps outcome).sum = 2 ^ (k - 1) - 1)
    ∧ ((∀ i, i < 5 → outcome i = false) → summarySleeps outcome = [1, 2, 4, 8]) := by
  constructor
  · intro h1 h5 hfail hsucc
    interval_cases k
    · norm_num at hsucc
      refine ⟨?_, ?_⟩ <;> simp [summarySleeps, retryFrom, hsucc]
    · norm_num at hsucc
      have e0 := hfail 0 (by omega)
      refine ⟨?_, ?_⟩ <;> simp [summarySleeps, retryFrom, e0, hsucc, List.range_succ]
    · norm_num at hsucc
      have e0 := hfail 0 (by omega)
      have e1 := hfail 1 (by omega)
      refine ⟨?_, ?_⟩ <;> simp [summarySleeps, retryFrom, e0, e1, hsucc, List.range_succ]
    · norm_num at hsucc
      have e0 := hfail 0 (by omega)
      have e1 := hfail 1 (by omega)
      have e2 := hfail 2 (by omega)
      refine ⟨?_, ?_⟩ <;> simp [summarySleeps, retryFrom, e0, e1, e2, hsucc, List.range_succ]
    · norm_num at hsucc
      have e0 := hfail 0 (by omega)
      have e1 := hfail 1 (by omega)
      have e2 := hfail 2 (by omega)
      have e3 := hfail 3 (by omega)
      refine ⟨?_, ?_⟩ <;> simp [summarySleeps, retryFrom, e0, e1, e2, e3, hsucc, List.range_succ]
  · intro hfail
    have e0 := hfail 0 (by omega)
    have e1 := hfail 1 (by omega)
    have e2 := hfail 2 (by omega)
    have e3 := hfail 3 (by omega)
    have e4 := hfail 4 (by omega)
    simp [summarySleeps, retryFrom, e0, e1, e2, e3, e4]

theorem C6_witness :
    summarySleeps (fun i => i == 2) = [1, 2]
    ∧ (summarySleeps (fun i => i == 2)).sum = 3 := by
  have h := (C6_backoff_schedule (fun i => i == 2) 3).1 (by omega) (by omega)
    (fun i hi => by simp only [beq_eq_false_iff_ne]; omega) (by rfl)
  exact ⟨h.1.trans (by decide), h.2.trans (by norm_num)⟩

/-- C5: the terminal fallback returns the space-joined headline text
verbatim when it has at most 200 whitespace-separated words, and exactly
the first 200 words re-joined plus the ellipsis marker otherwise. -/
theorem C5_fallback_truncation (headlines : List String) :
    ((pySplitWs (String.intercalate " " headlines)).length ≤ 200 →
      summaryFallback headlines = String.intercalate " " headlines)
    ∧ (200 < (pySplitWs (String.intercalate " " headlines)).length →
      summaryFallback headlines
        = String.intercalate " " ((pySplitWs (String.intercalate " " headlines)).take 200)
            ++ "..."
      ∧ ((pySplitWs (String.intercalate " " headlines)).take 200).length = 200) := by
  constructor
  · intro h
    simp only [summaryFallback]
    rw [if_neg (by omega)]
  · intro h
    refine ⟨?_, ?_⟩
    · simp only [summaryFallback]
      rw [if_pos (by omega)]
    · simp only [List.length_take]
      omega

set_option maxRecDepth 40000 in
theorem C5_witness :
    summaryFallback ["a", "b"] = "a b"
    ∧ summaryFallback (List.replicate 201 "w")
        = String.intercalate " "
            ((pySplitWs (String.intercalate " " (List.replicate 201 "w"))).take 200) ++ "..." := by
  constructor
  · exact ((C5_fallback_truncation ["a", "b"]).1 (by decide)).trans (by decide)
  · exact ((C5_fallback_truncation (List.replicate 201 "w")).2 (by decide)).1

/-! ## Lemmas for the translation backfill -/

theorem lookup_append (k : String) (es fs : List (String × PyVal)) :
    List.lookup k (es ++ fs) = (List.lookup k es).or (List.lookup k fs) := by
  induction es with
  | nil => simp [List.lookup]
  | cons e rest ih =>
    obtain ⟨k2, v2⟩ := e
    simp only [List.cons_append, List.lookup]
    cases h : (k == k2)
    · simpa [h] using ih
    · rfl

theorem dictSetDefault_lookup_missing (es : List (String × PyVal)) (k : String) (v : PyVal)
    (h : List.lookup k es = Option.none) :
    List.lookup k (dictSetDefault es k v) = some v := by
  unfold dictSetDefault
  rw [h]
  simp only [Option.isSome_none, Bool.false_eq_true, if_false]
  rw [lookup_append, h]
  simp [List.lookup]

theorem dictSetDefault_lookup_ne (es : List (String × PyVal)) (k k' : String) (v : PyVal)
    (h : (k' == k) = false) :
    List.lookup k' (dictSetDefault es k v) = List.lookup k' es := by
  unfold dictSetDefault
  split
  · rfl
  · rw [lookup_append]
    have h1 : List.lookup k' [(k, v)] = Option.none := by simp [List.lookup, h]
    rw [h1]
    cases List.lookup k' es <;> rfl

theorem dictSetDefault_preserves_isSome (es : List (String × PyVal)) (k k' : String)
    (v : PyVal) (h : (List.lookup k' es).isSome = true) :
    (List.lookup k' (dictSetDefault es k v)).isSome = true := by
  unfold dictSetDefault
  split
  · exact h
  · rw [lookup_append]
    cases hh : List.lookup k' es
    · rw [hh] at h; simp at h
    · rfl

theorem dictSetDefault_self_isSome (es : List (String × PyVal)) (k : String) (v : PyVal) :
    (List.lookup k (dictSetDefault es k v)).isSome = true := by
  unfold dictSetDefault
  split
  · assumption
  · rename_i h
    rw [lookup_append]
    have hn : List.lookup k es = Option.none := by
      cases hh : List.lookup k es
      · rfl
      · rw [hh] at h; simp at h
    rw [hn]
    simp [List.lookup]

theorem backfill_keys (es : List (String × PyVal)) (text lang : String)
    (h : lang = "Hindi" ∨ lang = "Arabic" ∨ lang = "Hebrew") :
    (List.lookup lang (backfillLangs es text)).isSome = true := by
  unfold backfillLangs
  rcases h with h | h | h <;> subst h
  · exact dictSetDefault_preserves_isSome _ _ _ _
      (dictSetDefault_preserves_isSome _ _ _ _ (dictSetDefault_self_isSome _ _ _))
  · exact dictSetDefault_preserves_isSome _ _ _ _ (dictSetDefault_self_isSome _ _ _)
  · exact dictSetDefault_self_isSome _ _ _

theorem backfill_missing (es : List (String × PyVal)) (text lang : String)
    (h : lang = "Hindi" ∨ lang = "Arabic" ∨ lang = "Hebrew")
    (hm : List.lookup lang es = Option.none) :
    List.lookup lang (backfillLangs es text) = some (PyVal.str text Option.none) := by
  unfold backfillLangs
  rcases h with h | h | h <;> subst h
  · rw [dictSetDefault_lookup_ne _ _ _ _ (by decide),
      dictSetDefault_lookup_ne _ _ _ _ (by decide)]
    exact dictSetDefault_lookup_missing _ _ _ hm
  · rw [dictSetDefault_lookup_ne _ _ _ _ (by decide)]
    apply dictSetDefault_lookup_missing
    rw [dictSetDefault_lookup_ne _ _ _ _ (by decide)]
    exact hm
  · apply dictSetDefault_lookup_missing
    rw [dictSetDefault_lookup_ne _ _ _ _ (by decide),
      dictSetDefault_lookup_ne _ _ _ _ (by decide)]
    exact hm

theorem pyJoinStr_filter_ok (sep : String) (xs : List PyVal) :
    pyJoinStr sep (xs.filter PyVal.isStr)
      = Except.ok (String.intercalate sep ((xs.filter PyVal.isStr).map PyVal.strVal)) := by
  unfold pyJoinStr
  rw [if_pos]
  simp only [List.all_eq_true]
  intro a ha
  exact (List.mem_filter.mp ha).2

/-- The translation stage's input normalization is total: it always returns
a string and never raises. -/
theorem translateText_total (v : PyVal) : ∃ s, translateText v = Except.ok s := by
  cases v with
  | dict es =>
    simp only [translateText]
    split
    · exact ⟨_, rfl⟩
    · split
      · exact ⟨_, rfl⟩
      · exact ⟨_, pyJoinStr_filter_ok "\n" (es.map Prod.snd)⟩
  | pynone => exact ⟨_, rfl⟩
  | pybool b => exact ⟨_, rfl⟩
  | pyint n => exact ⟨_, rfl⟩
  | str s p => exact ⟨_, rfl⟩
  | list xs => exact ⟨_, rfl⟩
  | tup xs => exact ⟨_, rfl⟩
  | obj nm attrs => exact ⟨_, rfl⟩

/-- C4: for every input and model-response outcome, the translation stage
returns (never raises) a mapping containing all three required keys; a
required key absent after decoding is backfilled with the original
normalized input text; on an exception (or missing JSON) the result maps
all three keys to the original text. -/
theorem C4_translation_keys_total (v : PyVal) (o : TranslateOutcome) :
    ∃ m, translate_agent v o = Except.ok m
      ∧ ((List.lookup "Hindi" m).isSome = true ∧ (List.lookup "Arabic" m).isSome = true
          ∧ (List.lookup "Hebrew" m).isSome = true)
      ∧ (∀ text es lang, translateText v = Except.ok text → ¬ pyStrip text = "" →
          o = TranslateOutcome.decoded es →
          (lang = "Hindi" ∨ lang = "Arabic" ∨ lang = "Hebrew") →
          List.lookup lang es = Option.none →
          List.lookup lang m = some (PyVal.str text Option.none))
      ∧ (∀ text, translateText v = Except.ok text → ¬ pyStrip text = "" →
          (o = TranslateOutcome.exn ∨ o = TranslateOutcome.noJson) →
          m = [("Hindi", PyVal.str text Option.none), ("Arabic", PyVal.str text Option.none),
            ("Hebrew", PyVal.str text Option.none)]) := by
  obtain ⟨text, ht⟩ := translateText_total v
  by_cases hs : pyStrip text = ""
  · refine ⟨[("Hindi", PyVal.str "" Option.none), ("Arabic", PyVal.str "" Option.none),
      ("Hebrew", PyVal.str "" Option.none)], ?_, ⟨rfl, rfl, rfl⟩, ?_, ?_⟩
    · simp only [translate_agent, ht]
      rw [if_pos hs]
    · intro text2 es lang ht2 hs2 ho hlang hm
      rw [ht] at ht2; injection ht2 with e; subst e
      exact absurd hs hs2
    · intro text2 ht2 hs2 ho
      rw [ht] at ht2; injection ht2 with e; subst e
      exact absurd hs hs2
  · cases o with
    | exn =>
      refine ⟨[("Hindi", PyVal.str text Option.none), ("Arabic", PyVal.str text Option.none),
        ("Hebrew", PyVal.str text Option.none)], ?_, ⟨rfl, rfl, rfl⟩, ?_, ?_⟩
      · simp only [translate_agent, ht]
        rw [if_neg hs]
      · intro text2 es lang ht2 hs2 ho hlang hm
        cases ho
      · intro text2 ht2 hs2 ho
        rw [ht] at ht2; injection ht2 with e; subst e
        rfl
    | noJson =>
      refine ⟨[("Hindi", PyVal.str text Option.none), ("Arabic", PyVal.str text Option.none),
        ("Hebrew", PyVal.str text Option.none)], ?_, ⟨rfl, rfl, rfl⟩, ?_, ?_⟩
      · simp only [translate_agent, ht]
        rw [if_neg hs]
      · intro text2 es lang ht2 hs2 ho hlang hm
        cases ho
      · intro text2 ht2 hs2 ho
        rw [ht] at ht2; injection ht2 with e; subst e
        rfl
    | decoded es0 =>
      refine ⟨backfillLangs es0 text, ?_, ?_, ?_, ?_⟩
      · simp only [translate_agent, ht]
        rw [if_neg hs]
      · exact ⟨backfill_keys es0 text "Hindi" (Or.inl rfl),
          backfill_keys es0 text "Arabic" (Or.inr (Or.inl rfl)),
          backfill_keys es0 text "Hebrew" (Or.inr (Or.inr rfl))⟩
      · intro text2 es lang ht2 hs2 ho hlang hm
        rw [ht] at ht2; injection ht2 with e; subst e
        injection ho with e2; subst e2
        exact backfill_missing es0 _ lang hlang hm
      · intro text2 ht2 hs2 ho
        rcases ho with ho | ho <;> cases ho

theorem C4_witness :
    translate_agent (PyVal.str "hello" Option.none)
        (TranslateOutcome.decoded [("Hindi", PyVal.str "nh" Option.none)])
      = Except.ok [("Hindi", PyVal.str "nh" Option.none),
          ("Arabic", PyVal.str "hello" Option.none), ("Hebrew", PyVal.str "hello" Option.none)]
    ∧ List.lookup "Arabic" [("Hindi", PyVal.str "nh" Option.none),
        ("Arabic", PyVal.str "hello" Option.none), ("Hebrew", PyVal.str "hello" Option.none)]
      = some (PyVal.str "hello" Option.none) := by
  obtain ⟨m, hm, hkeys, hback, hexn⟩ := C4_translation_keys_total
    (PyVal.str "hello" Option.none)
    (TranslateOutcome.decoded [("Hindi", PyVal.str "nh" Option.none)])
  have hlit : translate_agent (PyVal.str "hello" Option.none)
      (TranslateOutcome.decoded [("Hindi", PyVal.str "nh" Option.none)])
      = Except.ok [("Hindi", PyVal.str "nh" Option.none),
        ("Arabic", PyVal.str "hello" Option.none),
        ("Hebrew", PyVal.str "hello" Option.none)] := rfl
  have hm2 : m = [("Hindi", PyVal.str "nh" Option.none),
      ("Arabic", PyVal.str "hello" Option.none),
      ("Hebrew", PyVal.str "hello" Option.none)] := by
    rw [hlit] at hm
    injection hm with e
    exact e.symm
  constructor
  · exact hlit
  · have h := hback "hello" [("Hindi", PyVal.str "nh" Option.none)] "Arabic" rfl (by decide)
      rfl (Or.inr (Or.inl rfl)) rfl
    rw [hm2] at h
    exact h

/-- C8 counterexample: seven chart references with the single invalid one
first; because the five-element cap slices the list before validity is
checked, only four sends are attempted — not five as claimed. -/
theorem C8_counterexample :
    chartsInvalidFirst.length = 7
    ∧ (chartsInvalidFirst.filter (fun c => !validChartUrl c)).length = 1
    ∧ (send_chart_images_sync chartsInvalidFirst (fun _ => true)).attempts.length = 4
    ∧ (send_chart_images_sync chartsInvalidFirst (fun _ => true)).sent = 4 := by
  refine ⟨rfl, ?_, ?_, ?_⟩ <;> decide

/-- C8 (amended): chart delivery attempts at most five sends; only
references among the first five are considered, and an invalid reference
among them is skipped without a send but still consumes one of the five
slots; when the first five references are all valid (e.g. seven references
whose single invalid one comes later), exactly five sends are attempted;
per-chart outcomes do not change which sends are attempted; the returned
count is the number of attempted sends that succeeded, at most the number
attempted. -/
theorem C8_chart_cap (charts : List PyVal) (photoOk photoOk2 : Nat → Bool) :
    (send_chart_images_sync charts photoOk).attempts.length ≤ 5
    ∧ (∀ u ∈ (send_chart_images_sync charts photoOk).attempts,
        (pyStartsWith u "http://" || pyStartsWith u "https://") = true)
    ∧ ((charts.take 5).all validChartUrl = true → 5 ≤ charts.length →
        (send_chart_images_sync charts photoOk).attempts.length = 5)
    ∧ (send_chart_images_sync charts photoOk).attempts
        = (send_chart_images_sync charts photoOk2).attempts
    ∧ (send_chart_images_sync charts photoOk).sent
        ≤ (send_chart_images_sync charts photoOk).attempts.length := by
  refine ⟨?_, ?_, ?_, rfl, ?_⟩
  · simp only [send_chart_images_sync, List.length_map]
    calc ((charts.take 5).enum.filter (fun p => validChartUrl p.2)).length
        ≤ (charts.take 5).enum.length := List.length_filter_le _ _
      _ = (charts.take 5).length := List.enum_length
      _ ≤ 5 := by simp [List.length_take]
  · intro u hu
    simp only [send_chart_images_sync, List.mem_map] at hu
    obtain ⟨p, hp, hpu⟩ := hu
    have hv := (List.mem_filter.mp hp).2
    cases p2 : p.2 <;> rw [p2] at hv hpu <;> simp [validChartUrl] at hv
    rename_i s j
    simp only [PyVal.strVal] at hpu
    subst hpu
    simpa [pyStartsWith] using hv
  · intro hall hlen
    have he : ((charts.take 5).enum.filter (fun p => validChartUrl p.2))
        = (charts.take 5).enum := by
      apply List.filter_eq_self.mpr
      intro p hp
      have hmem : p.2 ∈ charts.take 5 :=
        List.getElem?_mem (List.mem_enum_iff_getElem?.mp hp)
      exact List.all_eq_true.mp hall _ hmem
    simp only [send_chart_images_sync, List.length_map, he, List.enum_length,
      List.length_take]
    omega
  · simp only [send_chart_images_sync, List.length_map]
    exact List.length_filter_le _ _

theorem C8_witness :
    (chartsInvalidLast.take 5).all validChartUrl = true
    ∧ (send_chart_images_sync chartsInvalidLast (fun _ => true)).attempts.length = 5 :=
  ⟨by decide, (C8_chart_cap chartsInvalidLast (fun _ => true) (fun _ => false)).2.2.1
    (by decide) (by decide)⟩

/-! ## Lemmas about `_split_message` -/

theorem pyStrip_length_le (s : String) : (pyStrip s).length ≤ s.length := by
  show (((s.data.dropWhile Char.isWhitespace).reverse.dropWhile
    Char.isWhitespace).reverse).length ≤ s.data.length
  rw [List.length_reverse]
  calc ((s.data.dropWhile Char.isWhitespace).reverse.dropWhile Char.isWhitespace).length
      ≤ (s.data.dropWhile Char.isWhitespace).reverse.length :=
        (List.dropWhile_suffix _).length_le
    _ = (s.data.dropWhile Char.isWhitespace).length := List.length_reverse _
    _ ≤ s.data.length := (List.dropWhile_suffix _).length_le

theorem pyStrip_append_newline (s : String) : pyStrip (s ++ "\n") = pyStrip s := by
  unfold pyStrip
  have hd : (s ++ "\n").data = s.data ++ ['\n'] := rfl
  rw [hd, List.dropWhile_append]
  by_cases he : (s.data.dropWhile Char.isWhitespace).isEmpty = true
  · rw [if_pos he]
    rw [List.isEmpty_iff.mp he]
    rfl
  · rw [if_neg he]
    have hrev : (s.data.dropWhile Char.isWhitespace ++ ['\n']).reverse
        = '\n' :: (s.data.dropWhile Char.isWhitespace).reverse := by simp
    rw [hrev]
    have hws : Char.isWhitespace '\n' = true := rfl
    rw [List.dropWhile_cons_of_pos hws]

theorem joinNL_concat (g : List String) (l : String) (h : g ≠ []) :
    joinNL (g ++ [l]) = joinNL g ++ "\n" ++ l := by
  cases g with
  | nil => exact absurd rfl h
  | cons a g2 =>
    simp only [joinNL, List.cons_append, List.foldl_append, List.foldl_cons, List.foldl_nil]

theorem splitLoop_length_le (maxLength : Nat) :
    ∀ (lns chunks : List String) (current : String),
      (∀ l ∈ lns, l.length ≤ maxLength) →
      (∀ c ∈ chunks, c.length ≤ maxLength) →
      (pyStrip current).length ≤ maxLength →
      ∀ c ∈ splitLoop lns chunks current maxLength, c.length ≤ maxLength := by
  intro lns
  induction lns with
  | nil =>
    intro chunks current hl hc hcur c hcmem
    simp only [splitLoop] at hcmem
    split at hcmem
    · rcases List.mem_append.mp hcmem with h | h
      · exact hc c h
      · have hceq := List.mem_singleton.mp h
        subst hceq
        exact hcur
    · exact hc c hcmem
  | cons line rest ih =>
    intro chunks current hl hc hcur c hcmem
    simp only [splitLoop] at hcmem
    split at hcmem
    · rename_i hfit
      refine ih chunks _ (fun l hml => hl l (List.mem_cons_of_mem _ hml)) hc ?_ c hcmem
      calc (pyStrip (current ++ line ++ "\n")).length
          ≤ (current ++ line ++ "\n").length := pyStrip_length_le _
        _ = current.length + line.length + 1 := by simp [String.length_append]; rfl
        _ ≤ maxLength := hfit
    · refine ih _ _ (fun l hml => hl l (List.mem_cons_of_mem _ hml)) ?_ ?_ c hcmem
      · intro c2 hc2
        by_cases hcs : (pyStrip current != "") = true
        · rw [if_pos hcs] at hc2
          rcases List.mem_append.mp hc2 with h | h
          · exact hc _ h
          · have hceq := List.mem_singleton.mp h
            subst hceq
            exact hcur
        · rw [if_neg hcs] at hc2
          exact hc _ hc2
      · rw [pyStrip_append_newline]
        calc (pyStrip line).length ≤ line.length := pyStrip_length_le _
          _ ≤ maxLength := hl line (List.mem_cons_self _ _)

theorem splitLoop_boundary (maxLength : Nat) (full : List String) :
    ∀ (lns chunks : List String) (current : String) (g pre : List String),
      full = pre ++ g ++ lns →
      ((g = [] ∧ current = "") ∨ (g ≠ [] ∧ current = joinNL g ++ "\n")) →
      (∀ c ∈ chunks, ∃ g2, g2 ≠ [] ∧ g2 <:+: full ∧ c = pyStrip (joinNL g2)) →
      ∀ c ∈ splitLoop lns chunks current maxLength,
        ∃ g2, g2 ≠ [] ∧ g2 <:+: full ∧ c = pyStrip (joinNL g2) := by
  intro lns
  induction lns with
  | nil =>
    intro chunks current g pre hfull hinv hc c hcmem
    simp only [splitLoop] at hcmem
    split at hcmem
    · rename_i hne
      rcases List.mem_append.mp hcmem with h | h
      · exact hc c h
      · have hceq := List.mem_singleton.mp h
        subst hceq
        rcases hinv with ⟨hg, hcur⟩ | ⟨hg, hcur⟩
        · rw [hcur] at hne
          exact absurd hne (by decide)
        · refine ⟨g, hg, ⟨pre, [], by simpa using hfull.symm⟩, ?_⟩
          rw [hcur, pyStrip_append_newline]
    · exact hc c hcmem
  | cons line rest ih =>
    intro chunks current g pre hfull hinv hc c hcmem
    simp only [splitLoop] at hcmem
    split at hcmem
    · rcases hinv with ⟨hg, hcur⟩ | ⟨hg, hcur⟩
      · subst hg
        subst hcur
        refine ih chunks _ [line] pre ?_ ?_ hc c hcmem
        · simpa using hfull
        · right
          refine ⟨by simp, ?_⟩
          show String.append "" line ++ "\n" = joinNL [line] ++ "\n"
          simp [joinNL]
          rfl
      · refine ih chunks _ (g ++ [line]) pre ?_ ?_ hc c hcmem
        · rw [hfull]; simp
        · right
          refine ⟨by simp, ?_⟩
          rw [hcur, joinNL_concat g line hg, String.append_assoc, String.append_assoc]
    · have hchunks : ∀ c2 ∈ (if (pyStrip current != "") = true
          then chunks ++ [pyStrip current] else chunks),
          ∃ g2, g2 ≠ [] ∧ g2 <:+: full ∧ c2 = pyStrip (joinNL g2) := by
        intro c2 hc2
        by_cases hcs : (pyStrip current != "") = true
        · rw [if_pos hcs] at hc2
          rcases List.mem_append.mp hc2 with h | h
          · exact hc _ h
          · have hceq := List.mem_singleton.mp h
            subst hceq
            rcases hinv with ⟨hg, hcur⟩ | ⟨hg, hcur⟩
            · rw [hcur] at hcs
              exact absurd hcs (by decide)
            · refine ⟨g, hg, ⟨pre, line :: rest, hfull.symm⟩, ?_⟩
              rw [hcur, pyStrip_append_newline]
        · rw [if_neg hcs] at hc2
          exact hc _ hc2
      refine ih _ _ [line] (pre ++ g) ?_ ?_ hchunks c hcmem
      · rw [hfull]; simp
      · right
        refine ⟨by simp, ?_⟩
        simp [joinNL]

theorem dropWhile_eq_self_of_all_neg {p : Char → Bool} :
    ∀ l : List Char, (∀ c ∈ l, p c = false) → List.dropWhile p l = l
  | [], _ => rfl
  | x :: xs, h => List.dropWhile_cons_of_neg (by simp [h x (List.mem_cons_self x xs)])

theorem pyStrip_eq_self (s : String) (h : ∀ c ∈ s.data, Char.isWhitespace c = false) :
    pyStrip s = s := by
  unfold pyStrip
  rw [dropWhile_eq_self_of_all_neg s.data h,
    dropWhile_eq_self_of_all_neg s.data.reverse
      (by intro c hc; exact h c (List.mem_reverse.mp hc)),
    List.reverse_reverse]

theorem splitOnChar_no_sep (sep : Char) :
    ∀ l : List Char, (∀ c ∈ l, c ≠ sep) → splitOnChar sep l = [l]
  | [], _ => rfl
  | x :: xs, h => by
    have ih := splitOnChar_no_sep sep xs (fun c hc => h c (List.mem_cons_of_mem _ hc))
    simp only [splitOnChar, ih]
    rw [if_neg (h x (List.mem_cons_self _ _))]

theorem longLine_length : longLine.length = 4001 := by
  show (List.replicate 4001 'a').length = 4001
  exact List.length_replicate 4001 'a'

theorem longLine_chars (c : Char) (hc : c ∈ longLine.data) : c = 'a' :=
  List.eq_of_mem_replicate hc

theorem splitlines_longLine : splitlines longLine = [longLine] := by
  unfold splitlines
  rw [splitOnChar_no_sep '\n' longLine.data
    (fun c hc => by rw [longLine_chars c hc]; decide)]
  rfl

theorem pyStrip_longLine : pyStrip longLine = longLine :=
  pyStrip_eq_self longLine
    (fun c hc => by rw [longLine_chars c hc]; rfl)

/-- C7 counterexample: a 4001-character message consisting of a single
line; the splitter cannot break inside the line, so the single chunk has
4001 characters, above the claimed 4000-character bound. -/
theorem C7_counterexample :
    split_message longLine 4000 = [longLine] ∧ longLine.length = 4001 := by
  have hstrip : pyStrip (longLine ++ "\n") = longLine := by
    rw [pyStrip_append_newline, pyStrip_longLine]
  have h1 : splitLoop [longLine] [] "" 4000 = [longLine] := by
    simp only [splitLoop]
    rw [if_neg (by simp only [longLine_length]; decide)]
    rw [hstrip]
    rw [if_pos (by decide)]
    rw [if_neg (by decide)]
    rfl
  constructor
  · simp only [split_message, splitlines_longLine, h1]
    rfl
  · exact longLine_length

/-- C7 (amended): a message of at most 4000 characters is sent as one
unlabeled message; a longer message is split at line boundaries only —
every chunk is the stripped newline-join of a non-empty consecutive run
of the message's lines — and sent as ordered parts labeled `Part i/N`;
every chunk is at most 4000 characters provided every single line of the
message is, a bound that fails only when one line alone exceeds it. -/
theorem C7_length_policy (message : String) :
    (message.length ≤ 4000 → sendMessagesFor message = [message])
    ∧ (4000 < message.length →
        sendMessagesFor message
          = (split_message message 4000).enum.map (fun p =>
              "Part " ++ toString (p.1 + 1) ++ "/"
                ++ toString (split_message message 4000).length ++ ":\n\n" ++ p.2))
    ∧ ((∀ l ∈ splitlines message, l.length ≤ 4000) →
        ∀ c ∈ split_message message 4000, c.length ≤ 4000)
    ∧ (∀ c ∈ split_message message 4000,
        c = "Empty message"
        ∨ ∃ g, g ≠ [] ∧ g <:+: splitlines message ∧ c = pyStrip (joinNL g)) := by
  refine ⟨?_, ?_, ?_, ?_⟩
  · intro h
    unfold sendMessagesFor
    rw [if_neg (by omega)]
  · intro h
    unfold sendMessagesFor
    rw [if_pos (by omega)]
  · intro hl c hc
    simp only [split_message] at hc
    split at hc
    · have hceq := List.mem_singleton.mp hc
      subst hceq
      decide
    · exact splitLoop_length_le 4000 (splitlines message) [] "" hl
        (by intro c2 hc2; simp at hc2) (by decide) c hc
  · intro c hc
    simp only [split_message] at hc
    split at hc
    · exact Or.inl (List.mem_singleton.mp hc)
    · refine Or.inr ?_
      exact splitLoop_boundary 4000 (splitlines message) (splitlines message) [] "" [] []
        (by simp) (Or.inl ⟨rfl, rfl⟩) (by intro c2 hc2; simp at hc2) c hc

theorem C7_witness :
    sendMessagesFor "hi" = ["hi"] ∧ "hi".length ≤ 4000 :=
  ⟨(C7_length_policy "hi").1 (by decide), by decide⟩

/-- C1 counterexample: for the Python list input `[0]`, Summarization's
normalization yields the non-string headline list `[0]` and the stage's
subsequent `"\n".join(headlines)` raises `TypeError` — the normalization
neither produces a list of strings nor avoids raising. -/
theorem C1_counterexample :
    extractHeadlines (PyVal.list [PyVal.pyint 0]) = [PyVal.pyint 0]
    ∧ (extractHeadlines (PyVal.list [PyVal.pyint 0])).all PyVal.isStr = false
    ∧ headlinesText (extractHeadlines (PyVal.list [PyVal.pyint 0]))
        = Except.error "TypeError: sequence item: expected str instance" :=
  ⟨rfl, rfl, rfl⟩

/-- C1 (amended): each stage normalizer yields its requested shape when it
returns — Translation always returns a string and never raises;
Summarization's text join succeeds (yielding the joined string) whenever
the extracted headline list is all strings, and raises `TypeError`
otherwise; Delivery's parser returns the three-key report shape whenever
it returns (it can raise on a mapping whose `charts` value is not
iterable or whose `translations` value is not dict-convertible). -/
theorem C1_normalizer_shapes (v : PyVal) (f : String → List String)
    (sp : String → String → Option String) (fuel : Nat) :
    (∃ s, translateText v = Except.ok s)
    ∧ ((extractHeadlines v).all PyVal.isStr = true →
        ∃ t, headlinesText (extractHeadlines v) = Except.ok t)
    ∧ (∀ r, parse_input_data f sp fuel v = Except.ok r → deliveryShape r = true) := by
  refine ⟨translateText_total v, ?_, ?_⟩
  · intro h
    refine ⟨String.intercalate "\n" ((extractHeadlines v).map PyVal.strVal), ?_⟩
    unfold headlinesText pyJoinStr
    rw [if_pos h]
  · intro r h
    exact parse_shape f sp fuel v r h

theorem C1_witness :
    (∃ s, translateText (PyVal.pyint 3) = Except.ok s)
    ∧ (∃ t, headlinesText (extractHeadlines (PyVal.str "a\nb" Option.none)) = Except.ok t)
    ∧ deliveryShape (PyVal.dict [("summary", PyVal.str "None" Option.none),
        ("charts", PyVal.list []), ("translations", PyVal.dict [])]) = true := by
  have h1 := C1_normalizer_shapes (PyVal.pyint 3) (fun _ => []) (fun _ _ => Option.none) 1
  have h2 := C1_normalizer_shapes (PyVal.str "a\nb" Option.none) (fun _ => [])
    (fun _ _ => Option.none) 1
  have h3 := C1_normalizer_shapes PyVal.pynone (fun _ => []) (fun _ _ => Option.none) 1
  exact ⟨h1.1, h2.2.1 (by decide), h3.2.2 _ rfl⟩
